import Mathlib

/-!
Shallow embedding of the `rpi-wireless-ap` repository (src/main.py and
src/qr-code.py) in Lean 4, together with theorems settling the claims about
its specification.

Python strings are modelled as `List Char` (code-point sequences); machine
side effects (filesystem, subprocess, logging) are made explicit: the upload
directory is a list of (filename, bytes) pairs, a subprocess invocation is a
`ProcOutcome` value supplied by the environment, and log writes are returned
as data.  Fallible Python code returns `PyResult`.
-/

namespace Hotspot

/-- Python strings, modelled as their sequence of Unicode code points. -/
abbrev Str := List Char

/-- Outcome of one `subprocess.run` invocation of the external
`manage-hotspot-users.sh` script: either the process ran and completed
(with an exit code and captured stdout), or the executable could not be
launched at all (Python raises `FileNotFoundError` / `OSError` in that
case, before any exit code exists). -/
inductive ProcOutcome where
  | completed (exitCode : Int) (stdout : Str)
  | launchFailure
deriving DecidableEq, Repr

/-- The Python exceptions that the embedded code can raise or catch. -/
inductive PyExn where
  | calledProcessError
  | fileNotFoundError
  | valueError
  | nameError
deriving DecidableEq, Repr

/-- Result of running a piece of Python code: a value, or an uncaught
exception propagating past it. -/
inductive PyResult (α : Type) where
  | ok (a : α)
  | exn (e : PyExn)
deriving DecidableEq, Repr

/-- `str.lower` on one character, for the ASCII range (the only mapping the
embedded code relies on: uppercase A-Z maps to a-z, everything else is kept). -/
def lowerChar (c : Char) : Char :=
  if 65 ≤ c.toNat ∧ c.toNat ≤ 90 then Char.ofNat (c.toNat + 32) else c

/-- `str.lower` (ASCII mapping, applied pointwise). -/
def pyLower (s : Str) : Str := s.map lowerChar

/-- Embeds the filter on main.py lines 109 and 127-128:
`filename.lower().endswith(('.png', '.jpg', '.jpeg', '.gif'))`. -/
def isImageName (f : Str) : Bool :=
  let l := pyLower f
  (".png".toList).isSuffixOf l || (".jpg".toList).isSuffixOf l ||
    (".jpeg".toList).isSuffixOf l || (".gif".toList).isSuffixOf l

/-- Python string comparison `a <= b`: lexicographic on code points.  Heads
are compared by code point; on a tie the tails are compared; a prefix sorts
before its extensions. -/
def strLe : Str → Str → Bool
  | [], _ => true
  | _ :: _, [] => false
  | a :: as, b :: bs =>
    if a.toNat < b.toNat then true
    else if b.toNat < a.toNat then false
    else strLe as bs

/-- Embeds the `gallery` handler body, main.py lines 106-113: collect the
directory entries whose lowercased name ends in an allowed image extension,
then `images.sort(reverse=True)` (descending by Python string comparison;
equal keys are identical strings, so any sorting algorithm gives the list
the source produces). -/
def gallery (dir : List Str) : List Str :=
  List.insertionSort (fun a b => strLe b a = true) (dir.filter isImageName)

/-- Embeds the image count of the `stats` handler, main.py lines 127-128. -/
def imageCount (dir : List Str) : Nat := (dir.filter isImageName).length

/-- Embeds `disconnect_user(ip)`, main.py lines 39-49: `subprocess.run`
with `check=True` raises `CalledProcessError` exactly when the process runs
and exits non-zero, and that is the only exception the `except` clause
catches.  A launch failure raises `FileNotFoundError`, which is not caught
and propagates to the caller.  The `ip` argument only feeds the command
line, so the embedding is parametrised directly by the process outcome. -/
def disconnect_user (kick : ProcOutcome) : PyResult Bool :=
  match kick with
  | ProcOutcome.completed rc _ =>
    if rc = 0 then PyResult.ok true else PyResult.ok false
  | ProcOutcome.launchFailure => PyResult.exn PyExn.fileNotFoundError

/-- The two templates the `/disconnect` handler can render. -/
inductive View where
  | disconnected_page
  | disconnect_manual_page
deriving DecidableEq, Repr

/-- Embeds the `auto_disconnect` handler, main.py lines 92-101.  The result
carries the rendered view together with the list of event actions logged by
the handler; an exception escaping `disconnect_user` escapes the handler
(Flask then produces a 500 response). -/
def auto_disconnect (kick : ProcOutcome) : PyResult (View × List Str) :=
  match disconnect_user kick with
  | PyResult.ok true => PyResult.ok (View.disconnected_page, ["disconnected".toList])
  | PyResult.ok false => PyResult.ok (View.disconnect_manual_page, [])
  | PyResult.exn e => PyResult.exn e

/-- Python whitespace recognised by `str.strip()` / `str.split()` on ASCII
text: space, \t \n \v \f \r and the ASCII separator characters 28-31. -/
def isPySpace (c : Char) : Bool :=
  decide (c.toNat = 32) || decide (9 ≤ c.toNat ∧ c.toNat ≤ 13) ||
    decide (28 ≤ c.toNat ∧ c.toNat ≤ 31)

/-- `str.strip()` with no argument: drop leading and trailing whitespace. -/
def pyStrip (s : Str) : Str :=
  ((s.dropWhile isPySpace).reverse.dropWhile isPySpace).reverse

/-- Decimal digit test on a character. -/
def isDigitChar (c : Char) : Bool := decide (48 ≤ c.toNat ∧ c.toNat ≤ 57)

/-- Numeric value of a decimal digit character. -/
def digitVal (c : Char) : Nat := c.toNat - 48

/-- Parse a non-empty all-digit sequence as a natural number. -/
def parseNatDigits (l : Str) : Option Nat :=
  if l ≠ [] ∧ l.all isDigitChar then
    some (l.foldl (fun a c => a * 10 + digitVal c) 0)
  else none

/-- Embeds Python `int(s)` on a string: strip whitespace, allow one optional
sign, then require at least one decimal digit; anything else raises
`ValueError` (modelled as `none`).  Digit-group underscores accepted by
CPython are not modelled; they do not occur in the inputs considered. -/
def pyInt (s : Str) : Option Int :=
  match pyStrip s with
  | '-' :: rest => (parseNatDigits rest).map (fun n => -(n : Int))
  | '+' :: rest => (parseNatDigits rest).map (fun n => (n : Int))
  | l => (parseNatDigits l).map (fun n => (n : Int))

/-- Response of the `/stats` handler: the normal structured (JSON, 200)
response with its three fields, or the structured 500 fault produced by the
handler's `except` clause from the exception it caught. -/
inductive StatsResponse where
  | ok (images_uploaded : Nat) (current_connections : Int) (status : Str)
  | fault (e : PyExn)
deriving DecidableEq, Repr

/-- Embeds the `stats` handler, main.py lines 122-143.  Inside the `try`
block: the image count is computed from the upload directory; then
`subprocess.run` (no `check=True`) returns a completed process even on a
non-zero exit, but raises `FileNotFoundError` on a launch failure;
`current_connections = int(result.stdout.strip()) if result.returncode == 0
else 0`, where `int` raises `ValueError` on unparseable input.  Any raised
exception is caught by the `except` clause, which returns the 500 fault
response. -/
def stats (dir : List Str) (countProc : ProcOutcome) : StatsResponse :=
  match countProc with
  | ProcOutcome.launchFailure => StatsResponse.fault PyExn.fileNotFoundError
  | ProcOutcome.completed rc out =>
    if rc = 0 then
      match pyInt (pyStrip out) with
      | some n => StatsResponse.ok (imageCount dir) n ("active".toList)
      | none => StatsResponse.fault PyExn.valueError
    else StatsResponse.ok (imageCount dir) 0 ("active".toList)

/-- Embeds `get_client_ip` from main.py lines 21-25: the request's
X-Forwarded-For header values as a list (one entry per header line, as
`request.headers.getlist` returns them); if any are present the first is
returned, else the transport peer address `request.remote_addr`. -/
def get_client_ip (xff : List Str) (remote_addr : Str) : Str :=
  match xff with
  | [] => remote_addr
  | v :: _ => v

/-- WSGI folds repeated header lines of the same name into the single
environ value by joining them with a comma and a space. -/
def joinCommaSpace : List Str → Str
  | [] => []
  | [v] => v
  | v :: w :: rest => v ++ ',' :: ' ' :: joinCommaSpace (w :: rest)

/-- Embeds `get_client_ip(request)` from qr-code.py lines 80-85: if
`environ['HTTP_X_FORWARDED_FOR']` is present (the comma-join of all header
values) it is returned whole, else `environ['REMOTE_ADDR']`. -/
def get_client_ip_qr (xff : List Str) (remote_addr : Str) : Str :=
  match xff with
  | [] => remote_addr
  | _ => joinCommaSpace xff

/-- The names bound at module level in main.py: line 7 imports `Flask`,
`request`, `render_template`, `redirect`, `jsonify` from flask; lines 8-12
bring in `os`, `subprocess`, `json`, `datetime`, `secure_filename`; the
rest are the module's own definitions.  `send_from_directory` is not among
them (and is not a Python builtin). -/
def mainTopLevelNames : List Str :=
  ["Flask".toList, "request".toList, "render_template".toList,
    "redirect".toList, "jsonify".toList, "os".toList, "subprocess".toList,
    "json".toList, "datetime".toList, "secure_filename".toList,
    "app".toList, "get_client_ip".toList, "log_event".toList,
    "disconnect_user".toList, "index".toList, "upload".toList,
    "auto_disconnect".toList, "gallery".toList, "serve_image".toList,
    "stats".toList]

/-- Embeds the `serve_image` handler, main.py lines 117-120:
`return send_from_directory(app.config['UPLOAD_FOLDER'], filename)`.
Python first resolves the name `send_from_directory` in the module's global
namespace; if it resolved, the call would return the named file's bytes from
the upload directory; since it does not resolve, evaluating the body raises
`NameError`. -/
def serve_image (dir : List (Str × List Nat)) (filename : Str) : PyResult (List Nat) :=
  if mainTopLevelNames.contains ("send_from_directory".toList) then
    match dir.lookup filename with
    | some bytes => PyResult.ok bytes
    | none => PyResult.exn PyExn.fileNotFoundError
  else PyResult.exn PyExn.nameError

/-- ASCII test, embedding `.encode('ascii', 'ignore')` keeping a character. -/
def isAsciiChar (c : Char) : Bool := decide (c.toNat < 128)

/-- The character class kept by werkzeug's
`_filename_ascii_strip_re = re.compile(r"[^A-Za-z0-9_.-]")` substitution:
ASCII letters, digits, underscore, dot and hyphen. -/
def isAllowedFilenameChar (c : Char) : Bool :=
  decide (65 ≤ c.toNat ∧ c.toNat ≤ 90) || decide (97 ≤ c.toNat ∧ c.toNat ≤ 122) ||
    decide (48 ≤ c.toNat ∧ c.toNat ≤ 57) ||
    decide (c = '_') || decide (c = '.') || decide (c = '-')

/-- `str.split()` with no argument: maximal runs of non-whitespace, with no
empty tokens.  The accumulator holds the current token reversed. -/
def splitWSAux : Str → Str → List Str
  | [], acc => if acc = [] then [] else [acc.reverse]
  | c :: rest, acc =>
    if isPySpace c then
      if acc = [] then splitWSAux rest [] else acc.reverse :: splitWSAux rest []
    else splitWSAux rest (c :: acc)

/-- `str.split()` with no argument. -/
def splitWS (s : Str) : List Str := splitWSAux s []

/-- `"_".join(tokens)`. -/
def joinUnderscore : List Str → Str
  | [] => []
  | [t] => t
  | t :: u :: rest => t ++ '_' :: joinUnderscore (u :: rest)

/-- Membership in the strip set of `.strip("._")`. -/
def isDotOrUnderscore (c : Char) : Bool := decide (c = '.') || decide (c = '_')

/-- `str.strip("._")`: drop leading and trailing dots and underscores. -/
def pyStripDotUnderscore (s : Str) : Str :=
  ((s.dropWhile isDotOrUnderscore).reverse.dropWhile isDotOrUnderscore).reverse

/-- Embeds werkzeug's `secure_filename` as imported on main.py line 12, on a
POSIX host (`os.sep = '/'`, `os.path.altsep = None`, `os.name = 'posix'`, so
the Windows-device-file branch is dead): normalise to ASCII (NFKD is the
identity on ASCII input; non-ASCII code points are then dropped by
`.encode('ascii', 'ignore')` — compatibility decompositions of non-ASCII
letters are not modelled), replace `/` by a space, split on whitespace and
re-join the tokens with `_`, delete every character outside
`[A-Za-z0-9_.-]`, and finally strip leading and trailing `.` and `_`. -/
def secure_filename (f : Str) : Str :=
  let ascii := f.filter isAsciiChar
  let sepReplaced := ascii.map (fun c => if c = '/' then ' ' else c)
  let joined := joinUnderscore (splitWS sepReplaced)
  pyStripDotUnderscore (joined.filter isAllowedFilenameChar)

/-- True when the string contains neither `/` nor `\` (the path-separator
characters of POSIX and Windows). -/
def hasNoPathSep (s : Str) : Bool :=
  s.all (fun c => !(decide (c = '/')) && !(decide (c = '\\')))

/-- A `datetime` value to second granularity, as consumed by
`datetime.now().strftime('%Y%m%d_%H%M%S')`.  Python's `datetime` guarantees
`1 <= year <= 9999` and in-range month, day, hour, minute, second. -/
structure PyTime where
  year : Nat
  month : Nat
  day : Nat
  hour : Nat
  minute : Nat
  second : Nat
deriving DecidableEq, Repr

/-- Last decimal digit of a natural number, as a character. -/
def lastDigit (n : Nat) : Char := Nat.digitChar (n % 10)

/-- Zero-padded two-digit decimal field of `strftime` (`%m %d %H %M %S`). -/
def twoDigits (n : Nat) : Str := [lastDigit (n / 10), lastDigit n]

/-- Zero-padded four-digit decimal field of `strftime` (`%Y`, for the
year range 1-9999 that `datetime` guarantees). -/
def fourDigits (n : Nat) : Str :=
  [lastDigit (n / 1000), lastDigit (n / 100), lastDigit (n / 10), lastDigit n]

/-- Embeds `datetime.strftime('%Y%m%d_%H%M%S')` (main.py line 73). -/
def strftimeYmdHMS (t : PyTime) : Str :=
  fourDigits t.year ++ twoDigits t.month ++ twoDigits t.day ++ '_' ::
    (twoDigits t.hour ++ twoDigits t.minute ++ twoDigits t.second)

/-- Recogniser for the `YYYYMMDD_HHMMSS` shape: exactly fifteen characters,
eight digits, an underscore, six digits. -/
def isTimestampStr : Str → Bool
  | [y1, y2, y3, y4, m1, m2, d1, d2, u, h1, h2, i1, i2, s1, s2] =>
    isDigitChar y1 && isDigitChar y2 && isDigitChar y3 && isDigitChar y4 &&
      isDigitChar m1 && isDigitChar m2 && isDigitChar d1 && isDigitChar d2 &&
      decide (u = '_') &&
      isDigitChar h1 && isDigitChar h2 && isDigitChar i1 && isDigitChar i2 &&
      isDigitChar s1 && isDigitChar s2
  | _ => false

/-- One entry of `request.files.getlist('files[]')`: a submitted file part
with its client-supplied filename and its bytes.  A part with an empty
filename is how browsers submit an empty file input; `FileStorage` is falsy
exactly when its filename is empty, so the guard on main.py line 71
(`if file and file.filename != ''`) reduces to the filename being
non-empty. -/
structure IncomingFile where
  filename : Str
  content : List Nat
deriving DecidableEq, Repr

/-- Embeds the upload loop of main.py lines 70-79.  `clock k` is the value
`datetime.now()` takes at the k-th executed save (line 73 is evaluated once
per stored file); the result is the list of sanitized original names (in
submission order, as accumulated in `uploaded_files`) and the list of
(stored filename, bytes) writes performed. -/
def processFiles (clock : Nat → PyTime) :
    Nat → List IncomingFile → List Str × List (Str × List Nat)
  | _, [] => ([], [])
  | k, f :: rest =>
    if f.filename = [] then processFiles clock k rest
    else
      let orig := secure_filename f.filename
      let stored := strftimeYmdHMS (clock k) ++ '_' :: orig
      let r := processFiles clock (k + 1) rest
      (orig :: r.1, (stored, f.content) :: r.2)

/-- Response of `POST /upload`: the 400 structured error for a missing
file-list field, or the rendered success page with the uploaded names and
`total_uploaded`. -/
inductive UploadResponse where
  | badRequest (msg : Str)
  | success (files : List Str) (total_uploaded : Nat)
deriving DecidableEq, Repr

/-- Everything `POST /upload` does: its response, the files written to the
upload directory, and the (action, count) events logged. -/
structure UploadOutcome where
  response : UploadResponse
  written : List (Str × List Nat)
  logged : List (Str × Nat)
deriving DecidableEq, Repr

/-- Embeds the POST branch of the `upload` handler, main.py lines 63-87:
if `'files[]' not in request.files` (modelled as `none`) return the 400
error; otherwise run the save loop, log `uploaded` with the count of stored
files, and render the success view with `total_uploaded`. -/
def upload_post (clock : Nat → PyTime) (form : Option (List IncomingFile)) :
    UploadOutcome :=
  match form with
  | none => ⟨UploadResponse.badRequest ("No files selected".toList), [], []⟩
  | some files =>
    let r := processFiles clock 0 files
    ⟨UploadResponse.success r.1 r.1.length, r.2, [("uploaded".toList, r.1.length)]⟩

/-- One tracked session of the example integration in qr-code.py
(lines 121-124 of the embedded example): timestamps are modelled in
seconds. -/
structure Session where
  connected_at : Nat
  last_activity : Nat
deriving DecidableEq, Repr

/-- `timedelta(minutes=30)`, in seconds (qr-code.py embedded example,
line 186). -/
def idleThresholdSeconds : Nat := 30 * 60

/-- `time.sleep(300)` between sweep cycles (qr-code.py embedded example,
line 193). -/
def sweepIntervalSeconds : Nat := 300

/-- Embeds one cycle of `check_and_disconnect` from
`auto_disconnect_inactive_users` (qr-code.py embedded example, lines
181-192): iterate over a snapshot of the session map; for each session
idle strictly longer than the threshold, invoke the kick subprocess
(no `check=True`, so a completed process never raises regardless of exit
code, while a launch failure raises), log, and delete the session — all
inside `try: ... except: pass`, so if the kick invocation raises, the
`del` is skipped and the session survives.  Sessions within the threshold
are untouched.  Result: the surviving session list and the list of IPs for
which a kick was attempted.  `now - last_activity` is truncated
subtraction, matching the `timedelta` comparison for the monotone clocks
involved. -/
def sweepOnce (now : Nat) (kick : Str → ProcOutcome) :
    List (Str × Session) → List (Str × Session) × List Str
  | [] => ([], [])
  | (ip, s) :: rest =>
    let r := sweepOnce now kick rest
    if idleThresholdSeconds < now - s.last_activity then
      match kick ip with
      | ProcOutcome.launchFailure => ((ip, s) :: r.1, ip :: r.2)
      | ProcOutcome.completed _ _ => (r.1, ip :: r.2)
    else ((ip, s) :: r.1, r.2)

/-! ### Helper lemmas -/

theorem strLe_total (a b : Str) : strLe a b = true ∨ strLe b a = true := by
  induction a generalizing b with
  | nil => left; rfl
  | cons x xs ih =>
    cases b with
    | nil => right; rfl
    | cons y ys =>
      by_cases h1 : x.toNat < y.toNat
      · left; simp [strLe, h1]
      · by_cases h2 : y.toNat < x.toNat
        · right; simp [strLe, h2]
        · rcases ih ys with h | h
          · left; simp [strLe, h1, h2, h]
          · right; simp [strLe, h1, h2, h]

theorem strLe_trans (a b c : Str) (hab : strLe a b = true) (hbc : strLe b c = true) :
    strLe a c = true := by
  induction a generalizing b c with
  | nil => rfl
  | cons x xs ih =>
    cases b with
    | nil => simp [strLe] at hab
    | cons y ys =>
      cases c with
      | nil => simp [strLe] at hbc
      | cons z zs =>
        simp only [strLe] at hab hbc ⊢
        by_cases hxy : x.toNat < y.toNat
        · simp only [if_pos hxy] at hab
          by_cases hyz : y.toNat < z.toNat
          · simp [show x.toNat < z.toNat by omega]
          · by_cases hzy : z.toNat < y.toNat
            · simp [hyz, hzy] at hbc
            · simp [show x.toNat < z.toNat by omega]
        · by_cases hyx : y.toNat < x.toNat
          · simp [hxy, hyx] at hab
          · by_cases hyz : y.toNat < z.toNat
            · simp [show x.toNat < z.toNat by omega]
            · by_cases hzy : z.toNat < y.toNat
              · simp [hyz, hzy] at hbc
              · simp only [if_neg hxy, if_neg hyx] at hab
                simp only [if_neg hyz, if_neg hzy] at hbc
                simp [show ¬ x.toNat < z.toNat by omega,
                  show ¬ z.toNat < x.toNat by omega, ih ys zs hab hbc]

theorem isDigitChar_digitChar : ∀ m, m < 10 → isDigitChar (Nat.digitChar m) = true := by
  decide

theorem isDigitChar_lastDigit (n : Nat) : isDigitChar (lastDigit n) = true :=
  isDigitChar_digitChar (n % 10) (Nat.mod_lt n (by decide))

theorem strftime_isTimestamp (t : PyTime) : isTimestampStr (strftimeYmdHMS t) = true := by
  simp [strftimeYmdHMS, fourDigits, twoDigits, isTimestampStr, isDigitChar_lastDigit]

theorem mem_of_mem_pyStripDotUnderscore (c : Char) (s : Str)
    (h : c ∈ pyStripDotUnderscore s) : c ∈ s := by
  unfold pyStripDotUnderscore at h
  rw [List.mem_reverse] at h
  have h1 : c ∈ (s.dropWhile isDotOrUnderscore).reverse :=
    (List.dropWhile_sublist _).subset h
  rw [List.mem_reverse] at h1
  exact (List.dropWhile_sublist _).subset h1

theorem secure_filename_allowed (f : Str) (c : Char) (h : c ∈ secure_filename f) :
    isAllowedFilenameChar c = true := by
  simp only [secure_filename] at h
  exact (List.mem_filter.mp (mem_of_mem_pyStripDotUnderscore c _ h)).2

theorem secure_filename_noPathSep (f : Str) : hasNoPathSep (secure_filename f) = true := by
  unfold hasNoPathSep
  rw [List.all_eq_true]
  intro c hc
  have hall := secure_filename_allowed f c hc
  by_cases h1 : c = '/'
  · subst h1; exact absurd hall (by decide)
  · by_cases h2 : c = '\\'
    · subst h2; exact absurd hall (by decide)
    · simp only [Bool.and_eq_true, Bool.not_eq_true', decide_eq_false_iff_not]
      exact ⟨h1, h2⟩

theorem processFiles_all_empty (clock : Nat → PyTime) (files : List IncomingFile)
    (h : ∀ f ∈ files, f.filename = []) (k : Nat) :
    processFiles clock k files = ([], []) := by
  induction files generalizing k with
  | nil => rfl
  | cons f rest ih =>
    have hf : f.filename = [] := h f (by simp)
    have := ih (fun g hg => h g (by simp [hg])) k
    simp [processFiles, hf, this]

theorem processFiles_getElem (clock : Nat → PyTime) (files : List IncomingFile) :
    ∀ (k i : Nat) (stored : Str) (content : List Nat),
      (processFiles clock k files).2[i]? = some (stored, content) →
      ∃ f, f ∈ files ∧ f.filename ≠ [] ∧
        stored = strftimeYmdHMS (clock (k + i)) ++ '_' :: secure_filename f.filename := by
  induction files with
  | nil => intro k i stored content h; simp [processFiles] at h
  | cons f rest ih =>
    intro k i stored content h
    by_cases hf : f.filename = []
    · simp only [processFiles, if_pos hf] at h
      obtain ⟨g, hg, hne, heq⟩ := ih k i stored content h
      exact ⟨g, List.mem_cons_of_mem f hg, hne, heq⟩
    · simp only [processFiles, if_neg hf] at h
      cases i with
      | zero =>
        rw [List.getElem?_cons_zero] at h
        obtain ⟨h1, _⟩ := Prod.mk.injEq .. ▸ Option.some.injEq .. ▸ h
        exact ⟨f, List.mem_cons_self f rest, hf, by simpa using h1.symm⟩
      | succ j =>
        rw [List.getElem?_cons_succ] at h
        obtain ⟨g, hg, hne, heq⟩ := ih (k + 1) j stored content h
        have harith : k + 1 + j = k + (j + 1) := by omega
        exact ⟨g, List.mem_cons_of_mem f hg, hne, by rw [← harith]; exact heq⟩

theorem sweepOnce_fst (now : Nat) (kick : Str → ProcOutcome)
    (l : List (Str × Session)) :
    (sweepOnce now kick l).1 = l.filter (fun e =>
      !(decide (idleThresholdSeconds < now - e.2.last_activity)) ||
        decide (kick e.1 = ProcOutcome.launchFailure)) := by
  induction l with
  | nil => rfl
  | cons e rest ih =>
    obtain ⟨ip, s⟩ := e
    by_cases hidle : idleThresholdSeconds < now - s.last_activity
    · cases hk : kick ip with
      | completed rc out => simp [sweepOnce, hidle, hk, ih, List.filter]
      | launchFailure => simp [sweepOnce, hidle, hk, ih, List.filter]
    · simp [sweepOnce, hidle, ih, List.filter]

theorem sweepOnce_snd (now : Nat) (kick : Str → ProcOutcome)
    (l : List (Str × Session)) :
    (sweepOnce now kick l).2 = (l.filter (fun e =>
      decide (idleThresholdSeconds < now - e.2.last_activity))).map Prod.fst := by
  induction l with
  | nil => rfl
  | cons e rest ih =>
    obtain ⟨ip, s⟩ := e
    by_cases hidle : idleThresholdSeconds < now - s.last_activity
    · cases hk : kick ip with
      | completed rc out => simp [sweepOnce, hidle, hk, ih, List.filter]
      | launchFailure => simp [sweepOnce, hidle, hk, ih, List.filter]
    · simp [sweepOnce, hidle, ih, List.filter]

/-! ### Claim theorems -/

/-- Claim C1, counterexample: when the external count command exits 0 with
the non-numeric stdout `abc`, the `stats` handler returns the structured 500
fault produced by its `except` clause (the `int()` call raises
`ValueError`), not `current_connections = 0` in the normal response — the
claim as stated is false on the code. -/
theorem stats_unparseable_zero_exit_faults :
    stats [] (ProcOutcome.completed 0 ("abc".toList)) = StatsResponse.fault PyExn.valueError ∧
    ∀ n, stats [] (ProcOutcome.completed 0 ("abc".toList)) ≠
      StatsResponse.ok n 0 ("active".toList) := by
  refine ⟨by decide, fun n h => ?_⟩
  rw [show stats [] (ProcOutcome.completed 0 ("abc".toList)) =
    StatsResponse.fault PyExn.valueError from by decide] at h
  exact StatsResponse.noConfusion h

/-- Claim C1, amended: on every invocation of the count command whose stdout
is not parseable as an integer, `stats` returns `current_connections = 0` in
its normal structured response when the command exited non-zero, but returns
the structured 500 fault (from the `ValueError` raised by `int()`) when the
command exited 0. -/
theorem stats_count_parse_behavior (dir : List Str) (rc : Int) (out : Str)
    (hp : pyInt (pyStrip out) = none) :
    (rc ≠ 0 → stats dir (ProcOutcome.completed rc out) =
      StatsResponse.ok (imageCount dir) 0 ("active".toList)) ∧
    (rc = 0 → stats dir (ProcOutcome.completed rc out) =
      StatsResponse.fault PyExn.valueError) := by
  constructor
  · intro h
    simp only [stats, if_neg h]
  · intro h
    subst h
    simp [stats, hp]

/-- Witness for the amended C1 theorem at a concrete input. -/
theorem stats_count_parse_behavior_witness :
    pyInt (pyStrip ("xyz".toList)) = none ∧ (2 : Int) ≠ 0 ∧
    stats [] (ProcOutcome.completed 2 ("xyz".toList)) =
      StatsResponse.ok (imageCount []) 0 ("active".toList) :=
  ⟨by decide, by decide,
    (stats_count_parse_behavior [] 2 ("xyz".toList) (by decide)).1 (by decide)⟩

/-- Claim C2: the name `send_from_directory` is not bound in main.py's
module namespace (it is missing from the flask import on line 7), so every
request to `GET /image/:filename` raises `NameError` and is answered by a
500 error — the file contents are never served. -/
theorem serve_image_raises_name_error :
    mainTopLevelNames.contains ("send_from_directory".toList) = false ∧
    ∀ (dir : List (Str × List Nat)) (filename : Str),
      serve_image dir filename = PyResult.exn PyExn.nameError := by
  refine ⟨by decide, fun dir filename => ?_⟩
  unfold serve_image
  rw [if_neg (by decide)]

/-- Claim C3, counterexample: when the kick executable cannot be launched,
`subprocess.run` raises `FileNotFoundError`, which the `except
subprocess.CalledProcessError` clause does not catch — `disconnect_user`
propagates the exception instead of returning false. -/
theorem disconnect_user_launch_failure_counterexample :
    disconnect_user ProcOutcome.launchFailure = PyResult.exn PyExn.fileNotFoundError ∧
    disconnect_user ProcOutcome.launchFailure ≠ PyResult.ok false := by decide

/-- Claim C3, amended: `kick(ip)` returns true if and only if the external
script process runs and exits with status 0, and returns false on any
non-zero exit; but an invocation failure (the executable cannot be
launched) propagates an exception out of the component rather than
yielding false. -/
theorem disconnect_user_amended (rc : Int) (out : Str) :
    (disconnect_user (ProcOutcome.completed rc out) = PyResult.ok true ↔ rc = 0) ∧
    (rc ≠ 0 → disconnect_user (ProcOutcome.completed rc out) = PyResult.ok false) ∧
    disconnect_user ProcOutcome.launchFailure = PyResult.exn PyExn.fileNotFoundError := by
  refine ⟨?_, fun h => by simp [disconnect_user, h], rfl⟩
  by_cases h : rc = 0 <;> simp [disconnect_user, h]

/-- Witness for the amended C3 theorem at a concrete input. -/
theorem disconnect_user_amended_witness :
    (3 : Int) ≠ 0 ∧ disconnect_user (ProcOutcome.completed 3 []) = PyResult.ok false :=
  ⟨by decide, (disconnect_user_amended 3 []).2.1 (by decide)⟩

/-- Claim C4, counterexample: when the kick executable cannot be launched,
the exception raised inside `disconnect_user` escapes the `/disconnect`
handler (Flask then answers with a 500 error status), so a kick failure of
this kind does not render the manual-instructions view. -/
theorem auto_disconnect_launch_failure_counterexample :
    auto_disconnect ProcOutcome.launchFailure = PyResult.exn PyExn.fileNotFoundError ∧
    ∀ v logs, auto_disconnect ProcOutcome.launchFailure ≠ PyResult.ok (v, logs) := by
  refine ⟨by decide, fun v logs h => ?_⟩
  rw [show auto_disconnect ProcOutcome.launchFailure =
    PyResult.exn PyExn.fileNotFoundError from by decide] at h
  exact PyResult.noConfusion h

/-- Claim C4, amended: when the kick process runs, `GET /disconnect`
renders the confirmation view and logs `disconnected` on exit status 0, and
renders the manual-instructions view with a non-error status on any
non-zero exit; but when the kick invocation itself fails to launch, the
exception escapes the handler and produces an error status. -/
theorem auto_disconnect_amended (rc : Int) (out : Str) :
    (rc = 0 → auto_disconnect (ProcOutcome.completed rc out) =
      PyResult.ok (View.disconnected_page, ["disconnected".toList])) ∧
    (rc ≠ 0 → auto_disconnect (ProcOutcome.completed rc out) =
      PyResult.ok (View.disconnect_manual_page, [])) := by
  constructor <;> intro h <;> simp [auto_disconnect, disconnect_user, h]

/-- Witness for the amended C4 theorem at concrete inputs. -/
theorem auto_disconnect_amended_witness :
    auto_disconnect (ProcOutcome.completed 0 []) =
      PyResult.ok (View.disconnected_page, ["disconnected".toList]) ∧
    auto_disconnect (ProcOutcome.completed 1 []) =
      PyResult.ok (View.disconnect_manual_page, []) :=
  ⟨(auto_disconnect_amended 0 []).1 rfl, (auto_disconnect_amended 1 []).2 (by decide)⟩

/-- Claim C5, counterexample: with two X-Forwarded-For header values, the
qr-code.py resolver returns the whole WSGI environ value (the comma-join of
all values), not the first value — the claim as stated fails for that
resolver. -/
theorem client_ip_qr_counterexample :
    get_client_ip_qr ["1.1.1.1".toList, "2.2.2.2".toList] ("9.9.9.9".toList) =
      "1.1.1.1, 2.2.2.2".toList ∧
    get_client_ip_qr ["1.1.1.1".toList, "2.2.2.2".toList] ("9.9.9.9".toList) ≠
      "1.1.1.1".toList := by decide

/-- Claim C5, amended: main.py's resolver returns the first X-Forwarded-For
value when any is present and the transport peer address otherwise;
qr-code.py's resolver returns the peer address when the header is absent and
otherwise the entire environ header value, which coincides with the first
value only when exactly one value is present. -/
theorem client_ip_resolution_amended (xff : List Str) (remote : Str) :
    (∀ v rest, xff = v :: rest → get_client_ip xff remote = v) ∧
    (xff = [] → get_client_ip xff remote = remote ∧ get_client_ip_qr xff remote = remote) ∧
    (∀ v, xff = [v] → get_client_ip_qr xff remote = v) := by
  refine ⟨?_, ?_, ?_⟩
  · rintro v rest rfl; rfl
  · rintro rfl; exact ⟨rfl, rfl⟩
  · rintro v rfl; rfl

/-- Witness for the amended C5 theorem at a concrete input. -/
theorem client_ip_resolution_amended_witness :
    (["7.7.7.7".toList] : List Str) = "7.7.7.7".toList :: [] ∧
    get_client_ip ["7.7.7.7".toList] ("8.8.8.8".toList) = "7.7.7.7".toList :=
  ⟨rfl, (client_ip_resolution_amended _ _).1 _ [] rfl⟩

/-- Claim C6: a `POST /upload` whose file-list field is present but whose
entries all have empty filenames returns the success response with
`total_uploaded = 0`, writes no files, and logs one `uploaded` event with
count 0. -/
theorem upload_all_empty_filenames (clock : Nat → PyTime) (files : List IncomingFile)
    (h : ∀ f ∈ files, f.filename = []) :
    upload_post clock (some files) =
      ⟨UploadResponse.success [] 0, [], [("uploaded".toList, 0)]⟩ := by
  simp [upload_post, processFiles_all_empty clock files h 0]

/-- Witness for the C6 theorem at a concrete input. -/
theorem upload_all_empty_filenames_witness :
    (∀ f ∈ [(⟨[], [7]⟩ : IncomingFile), ⟨[], []⟩], f.filename = ([] : Str)) ∧
    upload_post (fun _ => ⟨2024, 1, 1, 0, 0, 0⟩) (some [⟨[], [7]⟩, ⟨[], []⟩]) =
      ⟨UploadResponse.success [] 0, [], [("uploaded".toList, 0)]⟩ := by
  have h : ∀ f ∈ [(⟨[], [7]⟩ : IncomingFile), ⟨[], []⟩], f.filename = ([] : Str) := by
    intro f hf
    rcases List.mem_cons.mp hf with h1 | h1
    · subst h1; rfl
    · rw [List.mem_singleton] at h1; subst h1; rfl
  exact ⟨h, upload_all_empty_filenames _ _ h⟩

/-- Claim C7: every file stored by `POST /upload` comes from a submitted
part with a non-empty filename, and its stored name is the
`YYYYMMDD_HHMMSS` timestamp of that write (the i-th write uses the clock at
instant i) followed by `_` and the sanitized original name, which contains
no path-separator characters. -/
theorem upload_stored_filename_format (clock : Nat → PyTime) (files : List IncomingFile)
    (i : Nat) (stored : Str) (content : List Nat)
    (h : (upload_post clock (some files)).written[i]? = some (stored, content)) :
    ∃ f, f ∈ files ∧ f.filename ≠ [] ∧
      stored = strftimeYmdHMS (clock i) ++ '_' :: secure_filename f.filename ∧
      isTimestampStr (strftimeYmdHMS (clock i)) = true ∧
      hasNoPathSep (secure_filename f.filename) = true := by
  have h' : (processFiles clock 0 files).2[i]? = some (stored, content) := h
  obtain ⟨f, hmem, hne, heq⟩ := processFiles_getElem clock files 0 i stored content h'
  rw [Nat.zero_add] at heq
  exact ⟨f, hmem, hne, heq, strftime_isTimestamp _, secure_filename_noPathSep _⟩

/-- Witness for the C7 theorem at a concrete input. -/
theorem upload_stored_filename_format_witness :
    (upload_post (fun _ => ⟨2024, 5, 6, 7, 8, 9⟩)
        (some [⟨"a.jpg".toList, [1]⟩])).written[0]? =
      some ("20240506_070809_a.jpg".toList, [1]) ∧
    ∃ f, f ∈ [(⟨"a.jpg".toList, [1]⟩ : IncomingFile)] ∧ f.filename ≠ [] ∧
      "20240506_070809_a.jpg".toList =
        strftimeYmdHMS ((fun _ => (⟨2024, 5, 6, 7, 8, 9⟩ : PyTime)) 0) ++ '_' ::
          secure_filename f.filename ∧
      isTimestampStr (strftimeYmdHMS ((fun _ => (⟨2024, 5, 6, 7, 8, 9⟩ : PyTime)) 0)) = true ∧
      hasNoPathSep (secure_filename f.filename) = true :=
  ⟨by decide, upload_stored_filename_format (fun _ => ⟨2024, 5, 6, 7, 8, 9⟩)
    [⟨"a.jpg".toList, [1]⟩] 0 ("20240506_070809_a.jpg".toList) [1] (by decide)⟩

/-- Claim C8: `GET /gallery` lists exactly the directory entries whose
lowercased name ends in `.png`, `.jpg`, `.jpeg` or `.gif`, in descending
Python string order (newest first under the timestamp-prefix naming), and a
name such as `notes.txt` never passes the filter. -/
theorem gallery_membership_and_order (dir : List Str) :
    (∀ f, f ∈ gallery dir ↔ f ∈ dir ∧ isImageName f = true) ∧
    (gallery dir).Pairwise (fun a b => strLe b a = true) ∧
    isImageName ("notes.txt".toList) = false := by
  refine ⟨fun f => ?_, ?_, by decide⟩
  · unfold gallery
    rw [(List.perm_insertionSort _ _).mem_iff]
    exact List.mem_filter
  · haveI : IsTotal Str (fun a b => strLe b a = true) := ⟨fun a b => (strLe_total a b).symm⟩
    haveI : IsTrans Str (fun a b => strLe b a = true) :=
      ⟨fun a b c hab hbc => strLe_trans c b a hbc hab⟩
    exact List.sorted_insertionSort _ _

/-- Claim C9, counterexample: a session idle for longer than the threshold
for which the kick invocation raises (the executable cannot be launched) is
caught by the sweep's bare `except: pass` before the `del`, so the session
survives the cycle even though a kick was attempted. -/
theorem sweep_kick_failure_counterexample :
    idleThresholdSeconds < 5000 - 0 ∧
    sweepOnce 5000 (fun _ => ProcOutcome.launchFailure)
        [("10.0.0.2".toList, (⟨0, 0⟩ : Session))] =
      ([("10.0.0.2".toList, (⟨0, 0⟩ : Session))], ["10.0.0.2".toList]) := by decide

/-- Claim C9, amended: on a sweep cycle, a kick is attempted for exactly the
sessions whose `last_activity` is older than the 30-minute threshold; such a
session is removed when its kick invocation completes (with any exit
status), but survives the cycle when the invocation raises; every session
within the threshold survives unchanged. -/
theorem sweep_amended (now : Nat) (kick : Str → ProcOutcome)
    (sessions : List (Str × Session)) (e : Str × Session) (hmem : e ∈ sessions) :
    (idleThresholdSeconds < now - e.2.last_activity →
      e.1 ∈ (sweepOnce now kick sessions).2 ∧
      (kick e.1 ≠ ProcOutcome.launchFailure → e ∉ (sweepOnce now kick sessions).1) ∧
      (kick e.1 = ProcOutcome.launchFailure → e ∈ (sweepOnce now kick sessions).1)) ∧
    (¬ idleThresholdSeconds < now - e.2.last_activity →
      e ∈ (sweepOnce now kick sessions).1) := by
  rw [sweepOnce_fst, sweepOnce_snd]
  constructor
  · intro hidle
    refine ⟨?_, ?_, ?_⟩
    · exact List.mem_map_of_mem Prod.fst (List.mem_filter.mpr ⟨hmem, by simp [hidle]⟩)
    · intro hk hin
      have := (List.mem_filter.mp hin).2
      simp [hidle, hk] at this
    · intro hk
      exact List.mem_filter.mpr ⟨hmem, by simp [hk]⟩
  · intro hidle
    exact List.mem_filter.mpr ⟨hmem, by simp [hidle]⟩

/-- Witness for the amended C9 theorem at concrete inputs. -/
theorem sweep_amended_witness :
    ("a".toList, (⟨0, 0⟩ : Session)) ∈ [("a".toList, (⟨0, 0⟩ : Session))] ∧
    idleThresholdSeconds < 5000 - 0 ∧
    "a".toList ∈ (sweepOnce 5000 (fun _ => ProcOutcome.completed 0 [])
      [("a".toList, (⟨0, 0⟩ : Session))]).2 ∧
    ("a".toList, (⟨0, 0⟩ : Session)) ∉ (sweepOnce 5000 (fun _ => ProcOutcome.completed 0 [])
      [("a".toList, (⟨0, 0⟩ : Session))]).1 := by
  have h := sweep_amended 5000 (fun _ => ProcOutcome.completed 0 [])
    [("a".toList, (⟨0, 0⟩ : Session))] ("a".toList, (⟨0, 0⟩ : Session))
    (List.mem_singleton.mpr rfl)
  have hidle : idleThresholdSeconds < 5000 - 0 := by decide
  obtain ⟨hk, hrem, _⟩ := h.1 hidle
  exact ⟨List.mem_singleton.mpr rfl, hidle, hk, hrem (by simp)⟩

/-- Claim C10: whenever `GET /stats` produces its normal structured
response, its `images_uploaded` field equals the number of filenames listed
by `GET /gallery`, both being the image-extension filter applied to the same
directory. -/
theorem stats_image_count_matches_gallery (dir : List Str) (countProc : ProcOutcome)
    (n : Nat) (c : Int) (st : Str)
    (h : stats dir countProc = StatsResponse.ok n c st) :
    n = (gallery dir).length := by
  have hlen : (gallery dir).length = imageCount dir :=
    (List.perm_insertionSort _ _).length_eq
  rw [hlen]
  cases countProc with
  | launchFailure => exact absurd h (by simp [stats])
  | completed rc out =>
    by_cases hrc : rc = 0
    · subst hrc
      cases hpi : pyInt (pyStrip out) with
      | none => simp [stats, hpi] at h
      | some m =>
        simp [stats, hpi] at h
        exact h.1.symm
    · simp [stats, hrc] at h
      exact h.1.symm

/-- Witness for the C10 theorem at a concrete input. -/
theorem stats_image_count_matches_gallery_witness :
    stats ["a.jpg".toList, "notes.txt".toList] (ProcOutcome.completed 0 ("3".toList)) =
      StatsResponse.ok 1 3 ("active".toList) ∧
    (1 : Nat) = (gallery ["a.jpg".toList, "notes.txt".toList]).length :=
  ⟨by decide, stats_image_count_matches_gallery ["a.jpg".toList, "notes.txt".toList]
    (ProcOutcome.completed 0 ("3".toList)) 1 3 ("active".toList) (by decide)⟩

end Hotspot
